import Mathlib

/-!
Shallow embedding of `dragonfly/opt/blackbox_optimiser.py`: the optimum-tracking
and evaluation-bookkeeping core of the black-box optimisation driver.

Evaluation values (`qinfo.val`, `qinfo.true_val`) are real numbers in the source
and the running optimum is initialised to `-np.inf`; we model the value domain as
`WithBot ℚ`, with `⊥` playing the role of `-np.inf`.  Points and fidelities are
opaque to this core, so they are type parameters `P` and `F`.
-/

set_option autoImplicit false
set_option linter.unusedSectionVars false
set_option linter.unnecessarySeqFocus false

/-- The value domain: a real number or the sentinel `-np.inf` (`⊥`). -/
abbrev Val : Type := WithBot ℚ

/-- One evaluation record (`qinfo`).  `fidel = none` models a qinfo object with no
`fidel` attribute (the `hasattr(qinfo, 'fidel')` check in the source). -/
structure Qinfo (P F : Type) where
  point : P
  val : Val
  true_val : Val
  fidel : Option F
  deriving DecidableEq

/-- The function-caller collaborator, at its interface boundary: whether it is
multi-fidelity (`is_mf`), and the fidelity-to-optimise (`fidel_to_opt`, only
consulted when `is_mf` is true). -/
structure FuncCaller (F : Type) where
  is_mf : Bool
  fidel_to_opt : F
  deriving DecidableEq

/-- `func_caller.is_fidel_to_opt(f)`: whether fidelity `f` is the
fidelity-to-optimise. -/
def FuncCaller.is_fidel_to_opt {F : Type} [DecidableEq F] (fc : FuncCaller F) (f : F) : Bool :=
  f == fc.fidel_to_opt

/-- The `self.history` object, with the per-step parallel sequences installed by
`_blackbox_optimise_set_up` and the prior-evaluation sequences.  In the source,
`query_vals`/`query_true_vals` are filled by the parent experiment-design driver
through the `to_copy_from_qinfo_to_history` registration (source lines 67-68);
`query_at_fidel_to_opts` only exists in multi-fidelity mode and we model it as a
list that simply stays empty in single-fidelity mode. -/
structure History (P : Type) where
  query_vals : List Val
  query_true_vals : List Val
  curr_opt_vals : List Val
  curr_opt_points : List (Option P)
  curr_true_opt_vals : List Val
  curr_true_opt_points : List (Option P)
  query_at_fidel_to_opts : List Bool
  prev_eval_points : List P
  prev_eval_vals : List Val
  deriving DecidableEq

/-- The mutable state of a `BlackboxOptimiser` instance, restricted to the
attributes this core reads and writes. -/
structure BlackboxOptimiser (P F : Type) where
  func_caller : FuncCaller F
  curr_opt_val : Val
  curr_opt_point : Option P
  curr_true_opt_val : Val
  curr_true_opt_point : Option P
  num_fidel_to_opt_calls : Nat
  history : History P
  prev_eval_points : List P
  prev_eval_vals : List Val
  prev_eval_true_vals : List Val
  prev_eval_fidels : List F
  deriving DecidableEq

/-- The empty history created at set-up time. -/
def emptyHistory (P : Type) : History P :=
  ⟨[], [], [], [], [], [], [], [], []⟩

/-- `_exd_child_set_up` / `_blackbox_optimise_set_up`: initialise the optimum to
`-np.inf` / `None`, the multi-fidelity counter to 0, and all history sequences to
empty.  (`prev_eval_points` and `prev_eval_fidels` are initialised by the parent
experiment-design driver; they start empty like the sibling lists initialised at
source lines 48 and 72-73.) -/
def _blackbox_optimise_set_up {P F : Type} (fc : FuncCaller F) : BlackboxOptimiser P F :=
  { func_caller := fc
    curr_opt_val := ⊥
    curr_opt_point := none
    curr_true_opt_val := ⊥
    curr_true_opt_point := none
    num_fidel_to_opt_calls := 0
    history := emptyHistory P
    prev_eval_points := []
    prev_eval_vals := []
    prev_eval_true_vals := []
    prev_eval_fidels := [] }

/-- First half of `_update_opt_point_and_val` (source lines 117-119):
`if qinfo.val > self.curr_opt_val: ...`. -/
def updVal {P F : Type} (q : Qinfo P F) (s : BlackboxOptimiser P F) : BlackboxOptimiser P F :=
  if s.curr_opt_val < q.val then
    { s with curr_opt_val := q.val, curr_opt_point := some q.point }
  else s

/-- Second half of `_update_opt_point_and_val` (source lines 120-122):
`if qinfo.true_val > self.curr_true_opt_val: ...`. -/
def updTrue {P F : Type} (q : Qinfo P F) (s : BlackboxOptimiser P F) : BlackboxOptimiser P F :=
  if s.curr_true_opt_val < q.true_val then
    { s with curr_true_opt_val := q.true_val, curr_true_opt_point := some q.point }
  else s

/-- `_update_opt_point_and_val(qinfo, query_is_at_fidel_to_opt=None)`:
return immediately when the gate argument is `some false`; otherwise run the two
independent strict-`>` comparisons. -/
def _update_opt_point_and_val {P F : Type} (s : BlackboxOptimiser P F) (q : Qinfo P F)
    (query_is_at_fidel_to_opt : Option Bool) : BlackboxOptimiser P F :=
  if query_is_at_fidel_to_opt = some false then s
  else updTrue q (updVal q s)

/-- `query_is_at_fidel_to_opt` as computed at source lines 89-91:
the record's fidelity (defaulting to `fidel_to_opt` when the attribute is
absent) compared against the fidelity-to-optimise. -/
def queryIsAtFidelToOpt {P F : Type} [DecidableEq F] (s : BlackboxOptimiser P F)
    (q : Qinfo P F) : Bool :=
  s.func_caller.is_fidel_to_opt (q.fidel.getD s.func_caller.fidel_to_opt)

/-- The unconditional snapshot append of source lines 98-101: push the current
four optimum fields onto the running-optimum history sequences. -/
def snapshotAppend {P F : Type} (s : BlackboxOptimiser P F) : BlackboxOptimiser P F :=
  { s with
      history.curr_opt_vals := s.history.curr_opt_vals ++ [s.curr_opt_val]
      history.curr_opt_points := s.history.curr_opt_points ++ [s.curr_opt_point]
      history.curr_true_opt_vals := s.history.curr_true_opt_vals ++ [s.curr_true_opt_val]
      history.curr_true_opt_points := s.history.curr_true_opt_points ++ [s.curr_true_opt_point] }

/-- `_opt_method_update_history`: `pass` by default (source lines 124-126). -/
def _opt_method_update_history {P F : Type} (s : BlackboxOptimiser P F) (_q : Qinfo P F) :
    BlackboxOptimiser P F :=
  s

/-- `_exd_child_update_history(qinfo)` (source lines 84-103): in multi-fidelity
mode, log the fidelity flag, bump the counter by the boolean, and gate the
optimum update on it; in single-fidelity mode, update unconditionally; in both
modes, append the (possibly unchanged) optimum snapshot. -/
def _exd_child_update_history {P F : Type} [DecidableEq F] (s : BlackboxOptimiser P F)
    (q : Qinfo P F) : BlackboxOptimiser P F :=
  let s1 :=
    if s.func_caller.is_mf then
      _update_opt_point_and_val
        { s with
            history.query_at_fidel_to_opts :=
              s.history.query_at_fidel_to_opts ++ [queryIsAtFidelToOpt s q]
            num_fidel_to_opt_calls :=
              s.num_fidel_to_opt_calls + cond (queryIsAtFidelToOpt s q) 1 0 }
        q (some (queryIsAtFidelToOpt s q))
    else
      _update_opt_point_and_val s q none
  _opt_method_update_history (snapshotAppend s1) q

/-- Modelled from the spec: the parent experiment-design driver (`exd_core`, not
under `src/`) copies `qinfo.val` and `qinfo.true_val` into
`history.query_vals` / `history.query_true_vals` on every processed evaluation,
as registered via `to_copy_from_qinfo_to_history` at source lines 67-68 and
described in spec section 4.2 step 3. -/
def copyQinfoToHistory {P F : Type} (s : BlackboxOptimiser P F) (q : Qinfo P F) :
    BlackboxOptimiser P F :=
  { s with
      history.query_vals := s.history.query_vals ++ [q.val]
      history.query_true_vals := s.history.query_true_vals ++ [q.true_val] }

/-- One full per-evaluation update as the driver performs it: the driver-side
copy of the record's values into the history, then `_exd_child_update_history`. -/
def update {P F : Type} [DecidableEq F] (s : BlackboxOptimiser P F) (q : Qinfo P F) :
    BlackboxOptimiser P F :=
  _exd_child_update_history (copyQinfoToHistory s q) q

/-- Loop body of `_exd_child_handle_prev_evals` (source lines 164-174): record
the (defaulted) fidelity, advance the optimum with the same gating as `update`,
and append the record's point and value to the prior-evaluation lists. -/
def handlePrevEvalsStep {P F : Type} [DecidableEq F] (s : BlackboxOptimiser P F)
    (q : Qinfo P F) : BlackboxOptimiser P F :=
  let s1 :=
    if s.func_caller.is_mf then
      _update_opt_point_and_val
        { s with prev_eval_fidels := s.prev_eval_fidels ++ [q.fidel.getD s.func_caller.fidel_to_opt] }
        q (some (queryIsAtFidelToOpt s q))
    else
      _update_opt_point_and_val s q none
  { s1 with
      prev_eval_points := s1.prev_eval_points ++ [q.point]
      prev_eval_vals := s1.prev_eval_vals ++ [q.val] }

/-- `_exd_child_handle_prev_evals` (source lines 162-176): replay the prior
records in order, then publish the prior-evaluation lists on the history. -/
def _exd_child_handle_prev_evals {P F : Type} [DecidableEq F] (s : BlackboxOptimiser P F)
    (qinfos : List (Qinfo P F)) : BlackboxOptimiser P F :=
  let s1 := qinfos.foldl handlePrevEvalsStep s
  { s1 with
      history.prev_eval_points := s1.prev_eval_points
      history.prev_eval_vals := s1.prev_eval_vals }

/-- `_get_final_return_quantities` (source lines 191-193). -/
def _get_final_return_quantities {P F : Type} (s : BlackboxOptimiser P F) :
    Val × Option P × History P :=
  (s.curr_opt_val, s.curr_opt_point, s.history)

/-- Python's `l[-n:]`: the suffix of the last (at most) `n` elements. -/
def lastN {α : Type} (n : Nat) (l : List α) : List α :=
  l.drop (l.length - n)

/-- Python's `sum(...)` over a list of booleans: `True` counts 1, `False` 0. -/
def pySum (l : List Bool) : Nat :=
  l.foldl (fun a b => a + cond b 1 0) 0

/-- The `'%0.5f'` rendering of a value.  `-np.inf` prints as `-inf`; for finite
values the decimal rendering of the underlying C double is approximated by exact
rational rounding to five decimal places (`n` is `⌊q·100000 + 1/2⌋`, written on
the numerator and denominator directly; all concrete values used below are
exactly representable, so no rounding discrepancy arises). -/
def fmtFixed5 (v : Val) : String :=
  match v with
  | ⊥ => "-inf"
  | (q : ℚ) =>
    let n : ℤ := (q.num * 200000 + q.den).fdiv (2 * q.den)
    let sign := if n < 0 then "-" else ""
    let m := n.natAbs
    let fr := toString (m % 100000)
    sign ++ toString (m / 100000) ++ "." ++ String.mk (List.replicate (5 - fr.length) '0') ++ fr

/-- `_get_opt_method_report_results_str`: empty by default (source lines 155-160). -/
def _get_opt_method_report_results_str : String :=
  ""

/-- `_get_exd_child_report_results_str` (source lines 142-153): the current
maximum at fixed precision, and in multi-fidelity mode the total
fidelity-to-optimise call count plus the windowed count over
`query_at_fidel_to_opts[-20:]`, rendered with the literal `window_length`. -/
def _get_exd_child_report_results_str {P F : Type} (s : BlackboxOptimiser P F) : String :=
  let best_val_str := "curr_max=" ++ fmtFixed5 s.curr_opt_val
  let fidel_to_opt_str :=
    if s.func_caller.is_mf then
      let window_length : Nat := 20
      let window_queries_at_f2o := lastN window_length s.history.query_at_fidel_to_opts
      ", #f2o=" ++ toString s.num_fidel_to_opt_calls ++ "(" ++
        toString (pySum window_queries_at_f2o) ++ "/" ++ toString window_length ++ ")"
    else ""
  best_val_str ++ fidel_to_opt_str ++ _get_opt_method_report_results_str ++ ", "

/-- The message of OptInitialiser's `ValueError` (source lines 234, 240, 248, 252). -/
def initialiserError : String :=
  "No reason to call this method in an initialiser."

/-- `OptInitialiser._exd_child_handle_prev_evals` (source lines 232-234): raises
unconditionally. -/
def optInitialiserHandlePrevEvals : Except String Unit :=
  Except.error initialiserError

/-- `OptInitialiser._get_initial_qinfos` (source lines 236-240): raises
unconditionally. -/
def optInitialiserGetInitialQinfos : Except String Unit :=
  Except.error initialiserError

/-- `OptInitialiser._determine_next_query` (source lines 246-248): raises
unconditionally. -/
def optInitialiserDetermineNextQuery : Except String Unit :=
  Except.error initialiserError

/-- `OptInitialiser._determine_next_batch_of_queries` (source lines 250-252):
raises unconditionally. -/
def optInitialiserDetermineNextBatchOfQueries : Except String Unit :=
  Except.error initialiserError

/-- The per-evaluation update path on `OptInitialiser`: the class does not
override `_exd_child_update_history` (or `_update_opt_point_and_val`), so the
inherited `BlackboxOptimiser` update runs normally and no error is raised. -/
def optInitialiserExdChildUpdateHistory {P F : Type} [DecidableEq F]
    (s : BlackboxOptimiser P F) (q : Qinfo P F) : Except String (BlackboxOptimiser P F) :=
  Except.ok (_exd_child_update_history s q)

/-- The `CalledMFOptimiserWithSFCaller` exception message (source lines 19-27):
`'Called optimiser %s with func_caller %s. func_caller needs to be multi-fidelity.'`
instantiated with the string forms of the optimiser and the caller. -/
def calledMFOptimiserWithSFCallerMsg (optimiser func_caller : String) : String :=
  "Called optimiser " ++ optimiser ++ " with func_caller " ++ func_caller ++
    ". func_caller needs to be multi-fidelity."

/-- Modelled from the spec: the constructor-time capability check of spec
section 4.1.  `src/dragonfly/opt/blackbox_optimiser.py` defines the
`CalledMFOptimiserWithSFCaller` exception and its message but the raise site
lives in the optimisation-method subclasses outside `src/`; per the spec, a
multi-fidelity method bound to a non-multi-fidelity caller fails fast at
construction, before any evaluation, with that exception.  On success the
constructed optimiser is the freshly set-up state. -/
def constructBlackboxOptimiser (P F : Type) [DecidableEq F]
    (optimiser_str func_caller_str : String) (is_an_mf_method : Bool)
    (fc : FuncCaller F) : Except String (BlackboxOptimiser P F) :=
  if is_an_mf_method && !fc.is_mf then
    Except.error (calledMFOptimiserWithSFCallerMsg optimiser_str func_caller_str)
  else
    Except.ok (_blackbox_optimise_set_up fc)

/-- A record is eligible for the optimum-update step (spec section 4.2 step 2):
always in single-fidelity mode, and exactly when its (defaulted) fidelity is the
fidelity-to-optimise in multi-fidelity mode. -/
def eligible {P F : Type} [DecidableEq F] (fc : FuncCaller F) (q : Qinfo P F) : Bool :=
  !fc.is_mf || fc.is_fidel_to_opt (q.fidel.getD fc.fidel_to_opt)

/-- The maximum of a list of values, `-np.inf` when empty. -/
def listMax (l : List Val) : Val :=
  l.foldl max ⊥

/-- The four optimum fields, as a tuple. -/
def optQuad {P F : Type} (s : BlackboxOptimiser P F) : Val × Option P × Val × Option P :=
  (s.curr_opt_val, s.curr_opt_point, s.curr_true_opt_val, s.curr_true_opt_point)

/-- Pure counterpart of `_update_opt_point_and_val` on the optimum quadruple. -/
def quadStep {P F : Type} (q : Qinfo P F) (g : Option Bool)
    (r : Val × Option P × Val × Option P) : Val × Option P × Val × Option P :=
  if g = some false then r
  else
    let r1 := if r.1 < q.val then (q.val, some q.point, r.2.2.1, r.2.2.2) else r
    if r1.2.2.1 < q.true_val then (r1.1, r1.2.1, q.true_val, some q.point) else r1

/-- The gate argument that `_exd_child_update_history` passes to
`_update_opt_point_and_val`: `some query_is_at_fidel_to_opt` in multi-fidelity
mode, the Python default `None` otherwise. -/
def gateArg {P F : Type} [DecidableEq F] (s : BlackboxOptimiser P F) (q : Qinfo P F) :
    Option Bool :=
  if s.func_caller.is_mf then some (queryIsAtFidelToOpt s q) else none

/-- The state on which `_exd_child_update_history` invokes
`_update_opt_point_and_val`: the driver-copied state, with the fidelity flag
logged and the counter bumped in multi-fidelity mode. -/
def preUpdState {P F : Type} [DecidableEq F] (s : BlackboxOptimiser P F) (q : Qinfo P F) :
    BlackboxOptimiser P F :=
  if s.func_caller.is_mf then
    { copyQinfoToHistory s q with
        history.query_at_fidel_to_opts :=
          s.history.query_at_fidel_to_opts ++ [queryIsAtFidelToOpt s q]
        num_fidel_to_opt_calls :=
          s.num_fidel_to_opt_calls + cond (queryIsAtFidelToOpt s q) 1 0 }
  else copyQinfoToHistory s q

/-- Caller-level form of the fidelity check, independent of the optimiser state. -/
def atF2O {P F : Type} [DecidableEq F] (fc : FuncCaller F) (q : Qinfo P F) : Bool :=
  fc.is_fidel_to_opt (q.fidel.getD fc.fidel_to_opt)

/-! ## Concrete states used by the example theorems

Points and fidelities are instantiated with `ℕ`; all values are exact small
rationals, so everything below evaluates by `decide`. -/

/-- A single-fidelity function caller. -/
def sfCaller : FuncCaller ℕ := ⟨false, 0⟩

/-- A multi-fidelity function caller whose fidelity-to-optimise is `0`. -/
def mfCaller : FuncCaller ℕ := ⟨true, 0⟩

/-- A record with value 5 and true value 10 (no fidelity attribute). -/
def q1c : Qinfo ℕ ℕ := ⟨1, ((5 : ℚ) : Val), ((10 : ℚ) : Val), none⟩

/-- A record with value 7 and true value 3: raises the observed optimum over
`q1c` but not the true one. -/
def q2c : Qinfo ℕ ℕ := ⟨2, ((7 : ℚ) : Val), ((3 : ℚ) : Val), none⟩

/-- The single-fidelity state after processing `q1c` from a fresh set-up. -/
def s1c : BlackboxOptimiser ℕ ℕ := update (_blackbox_optimise_set_up sfCaller) q1c

/-- A record at the fidelity-to-optimise (fidelity 0). -/
def q3c : Qinfo ℕ ℕ := ⟨0, ((1 : ℚ) : Val), ((1 : ℚ) : Val), some 0⟩

/-- A record for exercising the initialiser's update path. -/
def q4c : Qinfo ℕ ℕ := ⟨5, ((3 : ℚ) : Val), ((3 : ℚ) : Val), none⟩

/-- A freshly set-up single-fidelity optimiser state. -/
def s4c : BlackboxOptimiser ℕ ℕ := _blackbox_optimise_set_up sfCaller

/-- A record away from the fidelity-to-optimise (fidelity 1), with large values. -/
def q2w : Qinfo ℕ ℕ := ⟨9, ((100 : ℚ) : Val), ((100 : ℚ) : Val), some 1⟩

/-- The multi-fidelity state after processing `q3c` from a fresh set-up. -/
def s2w : BlackboxOptimiser ℕ ℕ := update (_blackbox_optimise_set_up mfCaller) q3c

/-- Five multi-fidelity records: three at the target fidelity (values 4, 8, 2)
and two away from it (values 10 and 3). -/
def q5s : List (Qinfo ℕ ℕ) :=
  [⟨1, ((4 : ℚ) : Val), ((4 : ℚ) : Val), some 0⟩,
   ⟨2, ((8 : ℚ) : Val), ((8 : ℚ) : Val), some 0⟩,
   ⟨3, ((10 : ℚ) : Val), ((10 : ℚ) : Val), some 1⟩,
   ⟨4, ((2 : ℚ) : Val), ((2 : ℚ) : Val), some 0⟩,
   ⟨5, ((3 : ℚ) : Val), ((3 : ℚ) : Val), some 1⟩]

/-- The multi-fidelity state after the five records of `q5s`. -/
def s5c : BlackboxOptimiser ℕ ℕ := List.foldl update (_blackbox_optimise_set_up mfCaller) q5s

/-- A record tying both the observed optimum (5) and the true optimum (10) of `s1c`. -/
def q9c : Qinfo ℕ ℕ := ⟨3, ((5 : ℚ) : Val), ((10 : ℚ) : Val), none⟩

/-- Two records: an eligible one whose value is `-np.inf`, and an off-target one
with a large value. -/
def qs10 : List (Qinfo ℕ ℕ) :=
  [⟨1, ⊥, ((5 : ℚ) : Val), some 0⟩, ⟨2, ((100 : ℚ) : Val), ((7 : ℚ) : Val), some 1⟩]

/-! ## Basic lemmas about `_update_opt_point_and_val` -/

section Lemmas

variable {P F : Type} [DecidableEq F]

theorem optQuad_uopv (s : BlackboxOptimiser P F) (q : Qinfo P F) (g : Option Bool) :
    optQuad (_update_opt_point_and_val s q g) = quadStep q g (optQuad s) := by
  by_cases hg : g = some false <;>
    by_cases h1 : s.curr_opt_val < q.val <;>
      by_cases h2 : s.curr_true_opt_val < q.true_val <;>
        simp [_update_opt_point_and_val, quadStep, updVal, updTrue, optQuad, hg, h1, h2]

@[simp] theorem uopv_func_caller (s : BlackboxOptimiser P F) (q : Qinfo P F) (g : Option Bool) :
    (_update_opt_point_and_val s q g).func_caller = s.func_caller := by
  unfold _update_opt_point_and_val updVal updTrue
  split_ifs <;> rfl

@[simp] theorem uopv_history (s : BlackboxOptimiser P F) (q : Qinfo P F) (g : Option Bool) :
    (_update_opt_point_and_val s q g).history = s.history := by
  unfold _update_opt_point_and_val updVal updTrue
  split_ifs <;> rfl

@[simp] theorem uopv_num (s : BlackboxOptimiser P F) (q : Qinfo P F) (g : Option Bool) :
    (_update_opt_point_and_val s q g).num_fidel_to_opt_calls = s.num_fidel_to_opt_calls := by
  unfold _update_opt_point_and_val updVal updTrue
  split_ifs <;> rfl

@[simp] theorem uopv_prev_points (s : BlackboxOptimiser P F) (q : Qinfo P F) (g : Option Bool) :
    (_update_opt_point_and_val s q g).prev_eval_points = s.prev_eval_points := by
  unfold _update_opt_point_and_val updVal updTrue
  split_ifs <;> rfl

@[simp] theorem uopv_prev_vals (s : BlackboxOptimiser P F) (q : Qinfo P F) (g : Option Bool) :
    (_update_opt_point_and_val s q g).prev_eval_vals = s.prev_eval_vals := by
  unfold _update_opt_point_and_val updVal updTrue
  split_ifs <;> rfl

@[simp] theorem uopv_prev_fidels (s : BlackboxOptimiser P F) (q : Qinfo P F) (g : Option Bool) :
    (_update_opt_point_and_val s q g).prev_eval_fidels = s.prev_eval_fidels := by
  unfold _update_opt_point_and_val updVal updTrue
  split_ifs <;> rfl

@[simp] theorem uopv_gate_false (s : BlackboxOptimiser P F) (q : Qinfo P F) :
    _update_opt_point_and_val s q (some false) = s := by
  unfold _update_opt_point_and_val
  simp

end Lemmas

section Lemmas2

variable {P F : Type} [DecidableEq F]

@[simp] theorem opt_method_update_history_id (s : BlackboxOptimiser P F) (q : Qinfo P F) :
    _opt_method_update_history s q = s := rfl

@[simp] theorem snapshotAppend_curr_opt_val (s : BlackboxOptimiser P F) :
    (snapshotAppend s).curr_opt_val = s.curr_opt_val := rfl

@[simp] theorem snapshotAppend_curr_opt_point (s : BlackboxOptimiser P F) :
    (snapshotAppend s).curr_opt_point = s.curr_opt_point := rfl

@[simp] theorem snapshotAppend_curr_true_opt_val (s : BlackboxOptimiser P F) :
    (snapshotAppend s).curr_true_opt_val = s.curr_true_opt_val := rfl

@[simp] theorem snapshotAppend_curr_true_opt_point (s : BlackboxOptimiser P F) :
    (snapshotAppend s).curr_true_opt_point = s.curr_true_opt_point := rfl

@[simp] theorem snapshotAppend_func_caller (s : BlackboxOptimiser P F) :
    (snapshotAppend s).func_caller = s.func_caller := rfl

@[simp] theorem snapshotAppend_num (s : BlackboxOptimiser P F) :
    (snapshotAppend s).num_fidel_to_opt_calls = s.num_fidel_to_opt_calls := rfl

@[simp] theorem snapshotAppend_query_vals (s : BlackboxOptimiser P F) :
    (snapshotAppend s).history.query_vals = s.history.query_vals := rfl

@[simp] theorem snapshotAppend_query_true_vals (s : BlackboxOptimiser P F) :
    (snapshotAppend s).history.query_true_vals = s.history.query_true_vals := rfl

@[simp] theorem snapshotAppend_curr_opt_vals (s : BlackboxOptimiser P F) :
    (snapshotAppend s).history.curr_opt_vals = s.history.curr_opt_vals ++ [s.curr_opt_val] := rfl

@[simp] theorem snapshotAppend_curr_opt_points (s : BlackboxOptimiser P F) :
    (snapshotAppend s).history.curr_opt_points
      = s.history.curr_opt_points ++ [s.curr_opt_point] := rfl

@[simp] theorem snapshotAppend_curr_true_opt_vals (s : BlackboxOptimiser P F) :
    (snapshotAppend s).history.curr_true_opt_vals
      = s.history.curr_true_opt_vals ++ [s.curr_true_opt_val] := rfl

@[simp] theorem snapshotAppend_curr_true_opt_points (s : BlackboxOptimiser P F) :
    (snapshotAppend s).history.curr_true_opt_points
      = s.history.curr_true_opt_points ++ [s.curr_true_opt_point] := rfl

@[simp] theorem snapshotAppend_qafto (s : BlackboxOptimiser P F) :
    (snapshotAppend s).history.query_at_fidel_to_opts
      = s.history.query_at_fidel_to_opts := rfl

@[simp] theorem snapshotAppend_hist_prev_points (s : BlackboxOptimiser P F) :
    (snapshotAppend s).history.prev_eval_points = s.history.prev_eval_points := rfl

@[simp] theorem snapshotAppend_hist_prev_vals (s : BlackboxOptimiser P F) :
    (snapshotAppend s).history.prev_eval_vals = s.history.prev_eval_vals := rfl

@[simp] theorem copy_curr_opt_val (s : BlackboxOptimiser P F) (q : Qinfo P F) :
    (copyQinfoToHistory s q).curr_opt_val = s.curr_opt_val := rfl

@[simp] theorem copy_curr_opt_point (s : BlackboxOptimiser P F) (q : Qinfo P F) :
    (copyQinfoToHistory s q).curr_opt_point = s.curr_opt_point := rfl

@[simp] theorem copy_curr_true_opt_val (s : BlackboxOptimiser P F) (q : Qinfo P F) :
    (copyQinfoToHistory s q).curr_true_opt_val = s.curr_true_opt_val := rfl

@[simp] theorem copy_curr_true_opt_point (s : BlackboxOptimiser P F) (q : Qinfo P F) :
    (copyQinfoToHistory s q).curr_true_opt_point = s.curr_true_opt_point := rfl

@[simp] theorem copy_func_caller (s : BlackboxOptimiser P F) (q : Qinfo P F) :
    (copyQinfoToHistory s q).func_caller = s.func_caller := rfl

@[simp] theorem copy_num (s : BlackboxOptimiser P F) (q : Qinfo P F) :
    (copyQinfoToHistory s q).num_fidel_to_opt_calls = s.num_fidel_to_opt_calls := rfl

@[simp] theorem copy_query_vals (s : BlackboxOptimiser P F) (q : Qinfo P F) :
    (copyQinfoToHistory s q).history.query_vals = s.history.query_vals ++ [q.val] := rfl

@[simp] theorem copy_query_true_vals (s : BlackboxOptimiser P F) (q : Qinfo P F) :
    (copyQinfoToHistory s q).history.query_true_vals
      = s.history.query_true_vals ++ [q.true_val] := rfl

@[simp] theorem copy_curr_opt_vals (s : BlackboxOptimiser P F) (q : Qinfo P F) :
    (copyQinfoToHistory s q).history.curr_opt_vals = s.history.curr_opt_vals := rfl

@[simp] theorem copy_curr_opt_points (s : BlackboxOptimiser P F) (q : Qinfo P F) :
    (copyQinfoToHistory s q).history.curr_opt_points = s.history.curr_opt_points := rfl

@[simp] theorem copy_curr_true_opt_vals (s : BlackboxOptimiser P F) (q : Qinfo P F) :
    (copyQinfoToHistory s q).history.curr_true_opt_vals = s.history.curr_true_opt_vals := rfl

@[simp] theorem copy_curr_true_opt_points (s : BlackboxOptimiser P F) (q : Qinfo P F) :
    (copyQinfoToHistory s q).history.curr_true_opt_points
      = s.history.curr_true_opt_points := rfl

@[simp] theorem copy_qafto (s : BlackboxOptimiser P F) (q : Qinfo P F) :
    (copyQinfoToHistory s q).history.query_at_fidel_to_opts
      = s.history.query_at_fidel_to_opts := rfl

@[simp] theorem copy_hist_prev_points (s : BlackboxOptimiser P F) (q : Qinfo P F) :
    (copyQinfoToHistory s q).history.prev_eval_points = s.history.prev_eval_points := rfl

@[simp] theorem copy_hist_prev_vals (s : BlackboxOptimiser P F) (q : Qinfo P F) :
    (copyQinfoToHistory s q).history.prev_eval_vals = s.history.prev_eval_vals := rfl

end Lemmas2

section Lemmas3

variable {P F : Type} [DecidableEq F]

theorem ite_lt_eq_max {α : Type} [LinearOrder α] (a b : α) :
    (if a < b then b else a) = max a b := by
  split_ifs with h
  · exact (max_eq_right h.le).symm
  · exact (max_eq_left (not_lt.1 h)).symm

@[simp] theorem quadStep_gate_false (q : Qinfo P F) (r : Val × Option P × Val × Option P) :
    quadStep q (some false) r = r := by
  simp [quadStep]

theorem quadStep_fst (q : Qinfo P F) (g : Option Bool) (r : Val × Option P × Val × Option P)
    (hg : g ≠ some false) : (quadStep q g r).1 = max r.1 q.val := by
  by_cases h1 : r.1 < q.val <;>
    by_cases h2 : r.2.2.1 < q.true_val <;>
      simp [quadStep, hg, h1, h2, ← ite_lt_eq_max]

theorem quadStep_snd (q : Qinfo P F) (g : Option Bool) (r : Val × Option P × Val × Option P)
    (hg : g ≠ some false) :
    (quadStep q g r).2.1 = if r.1 < q.val then some q.point else r.2.1 := by
  by_cases h1 : r.1 < q.val <;>
    by_cases h2 : r.2.2.1 < q.true_val <;>
      simp [quadStep, hg, h1, h2]

theorem quadStep_trd (q : Qinfo P F) (g : Option Bool) (r : Val × Option P × Val × Option P)
    (hg : g ≠ some false) : (quadStep q g r).2.2.1 = max r.2.2.1 q.true_val := by
  by_cases h1 : r.1 < q.val <;>
    by_cases h2 : r.2.2.1 < q.true_val <;>
      simp [quadStep, hg, h1, h2, ← ite_lt_eq_max]

theorem quadStep_fth (q : Qinfo P F) (g : Option Bool) (r : Val × Option P × Val × Option P)
    (hg : g ≠ some false) :
    (quadStep q g r).2.2.2 = if r.2.2.1 < q.true_val then some q.point else r.2.2.2 := by
  by_cases h1 : r.1 < q.val <;>
    by_cases h2 : r.2.2.1 < q.true_val <;>
      simp [quadStep, hg, h1, h2]

@[simp] theorem update_func_caller (s : BlackboxOptimiser P F) (q : Qinfo P F) :
    (update s q).func_caller = s.func_caller := by
  by_cases hm : s.func_caller.is_mf <;>
    simp [update, _exd_child_update_history, hm]

@[simp] theorem optQuad_snapshotAppend (s : BlackboxOptimiser P F) :
    optQuad (snapshotAppend s) = optQuad s := rfl

@[simp] theorem optQuad_copy (s : BlackboxOptimiser P F) (q : Qinfo P F) :
    optQuad (copyQinfoToHistory s q) = optQuad s := rfl

theorem optQuad_update (s : BlackboxOptimiser P F) (q : Qinfo P F) :
    optQuad (update s q) = quadStep q (gateArg s q) (optQuad s) := by
  by_cases hm : s.func_caller.is_mf
  · simp only [update, _exd_child_update_history, copy_func_caller, hm, if_true,
      opt_method_update_history_id, optQuad_snapshotAppend, optQuad_uopv, gateArg]
    rfl
  · simp only [update, _exd_child_update_history, copy_func_caller, hm, Bool.false_eq_true,
      if_false, opt_method_update_history_id, optQuad_snapshotAppend, optQuad_uopv, gateArg]
    rfl

end Lemmas3

section Lemmas4

variable {P F : Type} [DecidableEq F]

@[simp] theorem queryIsAtFidelToOpt_copy (s : BlackboxOptimiser P F) (q q' : Qinfo P F) :
    queryIsAtFidelToOpt (copyQinfoToHistory s q) q' = queryIsAtFidelToOpt s q' := rfl

theorem update_eq (s : BlackboxOptimiser P F) (q : Qinfo P F) :
    update s q = snapshotAppend (_update_opt_point_and_val (preUpdState s q) q (gateArg s q)) := by
  by_cases hm : s.func_caller.is_mf <;>
    simp [update, _exd_child_update_history, preUpdState, gateArg, hm]

@[simp] theorem preUpd_func_caller (s : BlackboxOptimiser P F) (q : Qinfo P F) :
    (preUpdState s q).func_caller = s.func_caller := by
  by_cases hm : s.func_caller.is_mf <;> simp [preUpdState, hm]

@[simp] theorem preUpd_curr_opt_val (s : BlackboxOptimiser P F) (q : Qinfo P F) :
    (preUpdState s q).curr_opt_val = s.curr_opt_val := by
  by_cases hm : s.func_caller.is_mf <;> simp [preUpdState, hm]

@[simp] theorem preUpd_curr_opt_point (s : BlackboxOptimiser P F) (q : Qinfo P F) :
    (preUpdState s q).curr_opt_point = s.curr_opt_point := by
  by_cases hm : s.func_caller.is_mf <;> simp [preUpdState, hm]

@[simp] theorem preUpd_curr_true_opt_val (s : BlackboxOptimiser P F) (q : Qinfo P F) :
    (preUpdState s q).curr_true_opt_val = s.curr_true_opt_val := by
  by_cases hm : s.func_caller.is_mf <;> simp [preUpdState, hm]

@[simp] theorem preUpd_curr_true_opt_point (s : BlackboxOptimiser P F) (q : Qinfo P F) :
    (preUpdState s q).curr_true_opt_point = s.curr_true_opt_point := by
  by_cases hm : s.func_caller.is_mf <;> simp [preUpdState, hm]

theorem preUpd_num (s : BlackboxOptimiser P F) (q : Qinfo P F) :
    (preUpdState s q).num_fidel_to_opt_calls
      = s.num_fidel_to_opt_calls
        + (if s.func_caller.is_mf then cond (queryIsAtFidelToOpt s q) 1 0 else 0) := by
  by_cases hm : s.func_caller.is_mf <;> simp [preUpdState, hm]

@[simp] theorem preUpd_query_vals (s : BlackboxOptimiser P F) (q : Qinfo P F) :
    (preUpdState s q).history.query_vals = s.history.query_vals ++ [q.val] := by
  by_cases hm : s.func_caller.is_mf <;> simp [preUpdState, hm]

@[simp] theorem preUpd_query_true_vals (s : BlackboxOptimiser P F) (q : Qinfo P F) :
    (preUpdState s q).history.query_true_vals = s.history.query_true_vals ++ [q.true_val] := by
  by_cases hm : s.func_caller.is_mf <;> simp [preUpdState, hm]

@[simp] theorem preUpd_curr_opt_vals (s : BlackboxOptimiser P F) (q : Qinfo P F) :
    (preUpdState s q).history.curr_opt_vals = s.history.curr_opt_vals := by
  by_cases hm : s.func_caller.is_mf <;> simp [preUpdState, hm]

@[simp] theorem preUpd_curr_opt_points (s : BlackboxOptimiser P F) (q : Qinfo P F) :
    (preUpdState s q).history.curr_opt_points = s.history.curr_opt_points := by
  by_cases hm : s.func_caller.is_mf <;> simp [preUpdState, hm]

@[simp] theorem preUpd_curr_true_opt_vals (s : BlackboxOptimiser P F) (q : Qinfo P F) :
    (preUpdState s q).history.curr_true_opt_vals = s.history.curr_true_opt_vals := by
  by_cases hm : s.func_caller.is_mf <;> simp [preUpdState, hm]

@[simp] theorem preUpd_curr_true_opt_points (s : BlackboxOptimiser P F) (q : Qinfo P F) :
    (preUpdState s q).history.curr_true_opt_points = s.history.curr_true_opt_points := by
  by_cases hm : s.func_caller.is_mf <;> simp [preUpdState, hm]

theorem preUpd_qafto (s : BlackboxOptimiser P F) (q : Qinfo P F) :
    (preUpdState s q).history.query_at_fidel_to_opts
      = s.history.query_at_fidel_to_opts
        ++ (if s.func_caller.is_mf then [queryIsAtFidelToOpt s q] else []) := by
  by_cases hm : s.func_caller.is_mf <;> simp [preUpdState, hm]

@[simp] theorem preUpd_hist_prev_points (s : BlackboxOptimiser P F) (q : Qinfo P F) :
    (preUpdState s q).history.prev_eval_points = s.history.prev_eval_points := by
  by_cases hm : s.func_caller.is_mf <;> simp [preUpdState, hm]

@[simp] theorem preUpd_hist_prev_vals (s : BlackboxOptimiser P F) (q : Qinfo P F) :
    (preUpdState s q).history.prev_eval_vals = s.history.prev_eval_vals := by
  by_cases hm : s.func_caller.is_mf <;> simp [preUpdState, hm]

@[simp] theorem preUpd_prev_points (s : BlackboxOptimiser P F) (q : Qinfo P F) :
    (preUpdState s q).prev_eval_points = s.prev_eval_points := by
  by_cases hm : s.func_caller.is_mf <;> simp [preUpdState, hm, copyQinfoToHistory]

@[simp] theorem preUpd_prev_vals (s : BlackboxOptimiser P F) (q : Qinfo P F) :
    (preUpdState s q).prev_eval_vals = s.prev_eval_vals := by
  by_cases hm : s.func_caller.is_mf <;> simp [preUpdState, hm, copyQinfoToHistory]

@[simp] theorem preUpd_prev_fidels (s : BlackboxOptimiser P F) (q : Qinfo P F) :
    (preUpdState s q).prev_eval_fidels = s.prev_eval_fidels := by
  by_cases hm : s.func_caller.is_mf <;> simp [preUpdState, hm, copyQinfoToHistory]

end Lemmas4

section Lemmas5

variable {P F : Type} [DecidableEq F]

theorem update_num (s : BlackboxOptimiser P F) (q : Qinfo P F) :
    (update s q).num_fidel_to_opt_calls
      = s.num_fidel_to_opt_calls
        + (if s.func_caller.is_mf then cond (queryIsAtFidelToOpt s q) 1 0 else 0) := by
  rw [update_eq]; simp [preUpd_num]

theorem update_query_vals (s : BlackboxOptimiser P F) (q : Qinfo P F) :
    (update s q).history.query_vals = s.history.query_vals ++ [q.val] := by
  rw [update_eq]; simp

theorem update_query_true_vals (s : BlackboxOptimiser P F) (q : Qinfo P F) :
    (update s q).history.query_true_vals = s.history.query_true_vals ++ [q.true_val] := by
  rw [update_eq]; simp

theorem update_curr_opt_vals (s : BlackboxOptimiser P F) (q : Qinfo P F) :
    (update s q).history.curr_opt_vals
      = s.history.curr_opt_vals ++ [(update s q).curr_opt_val] := by
  rw [update_eq]; simp

theorem update_curr_opt_points (s : BlackboxOptimiser P F) (q : Qinfo P F) :
    (update s q).history.curr_opt_points
      = s.history.curr_opt_points ++ [(update s q).curr_opt_point] := by
  rw [update_eq]; simp

theorem update_curr_true_opt_vals (s : BlackboxOptimiser P F) (q : Qinfo P F) :
    (update s q).history.curr_true_opt_vals
      = s.history.curr_true_opt_vals ++ [(update s q).curr_true_opt_val] := by
  rw [update_eq]; simp

theorem update_curr_true_opt_points (s : BlackboxOptimiser P F) (q : Qinfo P F) :
    (update s q).history.curr_true_opt_points
      = s.history.curr_true_opt_points ++ [(update s q).curr_true_opt_point] := by
  rw [update_eq]; simp

theorem update_qafto (s : BlackboxOptimiser P F) (q : Qinfo P F) :
    (update s q).history.query_at_fidel_to_opts
      = s.history.query_at_fidel_to_opts
        ++ (if s.func_caller.is_mf then [queryIsAtFidelToOpt s q] else []) := by
  rw [update_eq]; simp [preUpd_qafto]

theorem update_hist_prev_points (s : BlackboxOptimiser P F) (q : Qinfo P F) :
    (update s q).history.prev_eval_points = s.history.prev_eval_points := by
  rw [update_eq]; simp

theorem update_hist_prev_vals (s : BlackboxOptimiser P F) (q : Qinfo P F) :
    (update s q).history.prev_eval_vals = s.history.prev_eval_vals := by
  rw [update_eq]; simp

end Lemmas5

section Lemmas6

variable {P F : Type} [DecidableEq F]

@[simp] theorem optQuad_set_prev (s : BlackboxOptimiser P F) (a : List P) (b : List Val) :
    optQuad { s with prev_eval_points := a, prev_eval_vals := b } = optQuad s := rfl

@[simp] theorem optQuad_set_fidels (s : BlackboxOptimiser P F) (c : List F) :
    optQuad { s with prev_eval_fidels := c } = optQuad s := rfl

@[simp] theorem queryIsAtFidelToOpt_set_fidels (s : BlackboxOptimiser P F) (c : List F)
    (q : Qinfo P F) :
    queryIsAtFidelToOpt { s with prev_eval_fidels := c } q = queryIsAtFidelToOpt s q := rfl

theorem gateArg_congr {s1 s2 : BlackboxOptimiser P F} (q : Qinfo P F)
    (h : s1.func_caller = s2.func_caller) : gateArg s1 q = gateArg s2 q := by
  simp [gateArg, queryIsAtFidelToOpt, h]

@[simp] theorem hpe_func_caller (s : BlackboxOptimiser P F) (q : Qinfo P F) :
    (handlePrevEvalsStep s q).func_caller = s.func_caller := by
  by_cases hm : s.func_caller.is_mf <;> simp [handlePrevEvalsStep, hm]

theorem optQuad_hpeStep (s : BlackboxOptimiser P F) (q : Qinfo P F) :
    optQuad (handlePrevEvalsStep s q) = quadStep q (gateArg s q) (optQuad s) := by
  by_cases hm : s.func_caller.is_mf
  · simp only [handlePrevEvalsStep, hm, if_true, optQuad_set_prev, optQuad_uopv,
      optQuad_set_fidels, gateArg]
  · simp only [handlePrevEvalsStep, hm, Bool.false_eq_true, if_false, optQuad_set_prev,
      optQuad_uopv, gateArg]

theorem hpe_num (s : BlackboxOptimiser P F) (q : Qinfo P F) :
    (handlePrevEvalsStep s q).num_fidel_to_opt_calls = s.num_fidel_to_opt_calls := by
  by_cases hm : s.func_caller.is_mf <;> simp [handlePrevEvalsStep, hm]

theorem hpe_history (s : BlackboxOptimiser P F) (q : Qinfo P F) :
    (handlePrevEvalsStep s q).history = s.history := by
  by_cases hm : s.func_caller.is_mf <;> simp [handlePrevEvalsStep, hm]

theorem hpe_prev_points (s : BlackboxOptimiser P F) (q : Qinfo P F) :
    (handlePrevEvalsStep s q).prev_eval_points = s.prev_eval_points ++ [q.point] := by
  by_cases hm : s.func_caller.is_mf <;> simp [handlePrevEvalsStep, hm]

theorem hpe_prev_vals (s : BlackboxOptimiser P F) (q : Qinfo P F) :
    (handlePrevEvalsStep s q).prev_eval_vals = s.prev_eval_vals ++ [q.val] := by
  by_cases hm : s.func_caller.is_mf <;> simp [handlePrevEvalsStep, hm]

end Lemmas6

section Lemmas7

variable {P F : Type} [DecidableEq F]

theorem queryIsAtFidelToOpt_eq_atF2O (s : BlackboxOptimiser P F) (q : Qinfo P F) :
    queryIsAtFidelToOpt s q = atF2O s.func_caller q := rfl

theorem update_prev_points (s : BlackboxOptimiser P F) (q : Qinfo P F) :
    (update s q).prev_eval_points = s.prev_eval_points := by
  rw [update_eq]; simp [snapshotAppend]

theorem update_prev_vals (s : BlackboxOptimiser P F) (q : Qinfo P F) :
    (update s q).prev_eval_vals = s.prev_eval_vals := by
  rw [update_eq]; simp [snapshotAppend]

theorem update_curr_opt_val_sf (s : BlackboxOptimiser P F) (q : Qinfo P F)
    (h : s.func_caller.is_mf = false) :
    (update s q).curr_opt_val = max s.curr_opt_val q.val := by
  have hg : gateArg s q = none := by simp [gateArg, h]
  calc (update s q).curr_opt_val = (optQuad (update s q)).1 := rfl
    _ = (quadStep q none (optQuad s)).1 := by rw [optQuad_update, hg]
    _ = max (optQuad s).1 q.val := quadStep_fst _ _ _ (by simp)
    _ = max s.curr_opt_val q.val := rfl

theorem update_curr_true_opt_val_sf (s : BlackboxOptimiser P F) (q : Qinfo P F)
    (h : s.func_caller.is_mf = false) :
    (update s q).curr_true_opt_val = max s.curr_true_opt_val q.true_val := by
  have hg : gateArg s q = none := by simp [gateArg, h]
  calc (update s q).curr_true_opt_val = (optQuad (update s q)).2.2.1 := rfl
    _ = (quadStep q none (optQuad s)).2.2.1 := by rw [optQuad_update, hg]
    _ = max (optQuad s).2.2.1 q.true_val := quadStep_trd _ _ _ (by simp)
    _ = max s.curr_true_opt_val q.true_val := rfl

theorem update_quad_gate_false (s : BlackboxOptimiser P F) (q : Qinfo P F)
    (hm : s.func_caller.is_mf = true) (hb : queryIsAtFidelToOpt s q = false) :
    optQuad (update s q) = optQuad s := by
  have hg : gateArg s q = some false := by simp [gateArg, hm, hb]
  rw [optQuad_update, hg, quadStep_gate_false]

theorem foldl_update_func_caller :
    ∀ (qs : List (Qinfo P F)) (s : BlackboxOptimiser P F),
      (List.foldl update s qs).func_caller = s.func_caller
  | [], _ => rfl
  | q :: qs, s => by
    rw [List.foldl_cons, foldl_update_func_caller qs, update_func_caller]

theorem foldl_quad_agree :
    ∀ (qs : List (Qinfo P F)) (s1 s2 : BlackboxOptimiser P F),
      s1.func_caller = s2.func_caller → optQuad s1 = optQuad s2 →
      optQuad (List.foldl handlePrevEvalsStep s1 qs) = optQuad (List.foldl update s2 qs)
  | [], _, _, _, hq => hq
  | q :: qs, s1, s2, hf, hq => by
    rw [List.foldl_cons, List.foldl_cons]
    exact foldl_quad_agree qs _ _
      (by rw [hpe_func_caller, update_func_caller, hf])
      (by rw [optQuad_hpeStep, optQuad_update, gateArg_congr q hf, hq])

theorem foldl_update_num_mf :
    ∀ (qs : List (Qinfo P F)) (s : BlackboxOptimiser P F) (fc : FuncCaller F),
      s.func_caller = fc → fc.is_mf = true →
      (List.foldl update s qs).num_fidel_to_opt_calls
        = s.num_fidel_to_opt_calls + qs.countP (fun q => atF2O fc q)
  | [], _, _, _, _ => by simp
  | q :: qs, s, fc, hfc, hm => by
    rw [List.foldl_cons,
      foldl_update_num_mf qs (update s q) fc (by rw [update_func_caller, hfc]) hm,
      update_num, List.countP_cons, hfc, hm]
    have hq : queryIsAtFidelToOpt s q = atF2O fc q := by
      rw [queryIsAtFidelToOpt_eq_atF2O, hfc]
    rw [hq]
    cases h : atF2O fc q <;> simp [h] <;> omega

theorem foldl_update_num_sf :
    ∀ (qs : List (Qinfo P F)) (s : BlackboxOptimiser P F),
      s.func_caller.is_mf = false →
      (List.foldl update s qs).num_fidel_to_opt_calls = s.num_fidel_to_opt_calls
  | [], _, _ => rfl
  | q :: qs, s, h => by
    rw [List.foldl_cons,
      foldl_update_num_sf qs (update s q) (by rw [update_func_caller]; exact h),
      update_num, h]
    simp

theorem foldl_update_ov_sf :
    ∀ (qs : List (Qinfo P F)) (s : BlackboxOptimiser P F),
      s.func_caller.is_mf = false →
      (List.foldl update s qs).curr_opt_val
        = List.foldl (fun a (q : Qinfo P F) => max a q.val) s.curr_opt_val qs
  | [], _, _ => rfl
  | q :: qs, s, h => by
    rw [List.foldl_cons, List.foldl_cons,
      foldl_update_ov_sf qs (update s q) (by rw [update_func_caller]; exact h),
      update_curr_opt_val_sf s q h]

theorem foldl_update_tv_sf :
    ∀ (qs : List (Qinfo P F)) (s : BlackboxOptimiser P F),
      s.func_caller.is_mf = false →
      (List.foldl update s qs).curr_true_opt_val
        = List.foldl (fun a (q : Qinfo P F) => max a q.true_val) s.curr_true_opt_val qs
  | [], _, _ => rfl
  | q :: qs, s, h => by
    rw [List.foldl_cons, List.foldl_cons,
      foldl_update_tv_sf qs (update s q) (by rw [update_func_caller]; exact h),
      update_curr_true_opt_val_sf s q h]

end Lemmas7

section Lemmas8

variable {P F : Type} [DecidableEq F]

theorem foldl_update_query_vals :
    ∀ (qs : List (Qinfo P F)) (s : BlackboxOptimiser P F),
      (List.foldl update s qs).history.query_vals
        = s.history.query_vals ++ qs.map Qinfo.val
  | [], _ => by simp
  | q :: qs, s => by
    rw [List.foldl_cons, foldl_update_query_vals qs (update s q), update_query_vals]
    simp

theorem foldl_update_query_true_vals :
    ∀ (qs : List (Qinfo P F)) (s : BlackboxOptimiser P F),
      (List.foldl update s qs).history.query_true_vals
        = s.history.query_true_vals ++ qs.map Qinfo.true_val
  | [], _ => by simp
  | q :: qs, s => by
    rw [List.foldl_cons, foldl_update_query_true_vals qs (update s q), update_query_true_vals]
    simp

theorem foldl_update_curr_opt_vals_len :
    ∀ (qs : List (Qinfo P F)) (s : BlackboxOptimiser P F),
      (List.foldl update s qs).history.curr_opt_vals.length
        = s.history.curr_opt_vals.length + qs.length
  | [], _ => by simp
  | q :: qs, s => by
    rw [List.foldl_cons, foldl_update_curr_opt_vals_len qs (update s q), update_curr_opt_vals]
    simp
    omega

theorem foldl_update_curr_opt_points_len :
    ∀ (qs : List (Qinfo P F)) (s : BlackboxOptimiser P F),
      (List.foldl update s qs).history.curr_opt_points.length
        = s.history.curr_opt_points.length + qs.length
  | [], _ => by simp
  | q :: qs, s => by
    rw [List.foldl_cons, foldl_update_curr_opt_points_len qs (update s q), update_curr_opt_points]
    simp
    omega

theorem foldl_update_curr_true_opt_vals_len :
    ∀ (qs : List (Qinfo P F)) (s : BlackboxOptimiser P F),
      (List.foldl update s qs).history.curr_true_opt_vals.length
        = s.history.curr_true_opt_vals.length + qs.length
  | [], _ => by simp
  | q :: qs, s => by
    rw [List.foldl_cons, foldl_update_curr_true_opt_vals_len qs (update s q),
      update_curr_true_opt_vals]
    simp
    omega

theorem foldl_update_curr_true_opt_points_len :
    ∀ (qs : List (Qinfo P F)) (s : BlackboxOptimiser P F),
      (List.foldl update s qs).history.curr_true_opt_points.length
        = s.history.curr_true_opt_points.length + qs.length
  | [], _ => by simp
  | q :: qs, s => by
    rw [List.foldl_cons, foldl_update_curr_true_opt_points_len qs (update s q),
      update_curr_true_opt_points]
    simp
    omega

theorem foldl_update_qafto_len :
    ∀ (qs : List (Qinfo P F)) (s : BlackboxOptimiser P F),
      (List.foldl update s qs).history.query_at_fidel_to_opts.length
        = s.history.query_at_fidel_to_opts.length
          + (if s.func_caller.is_mf then qs.length else 0)
  | [], _ => by simp
  | q :: qs, s => by
    rw [List.foldl_cons, foldl_update_qafto_len qs (update s q), update_qafto,
      update_func_caller]
    by_cases hm : s.func_caller.is_mf <;> simp [hm] <;> omega

theorem foldl_update_hist_prev_points :
    ∀ (qs : List (Qinfo P F)) (s : BlackboxOptimiser P F),
      (List.foldl update s qs).history.prev_eval_points = s.history.prev_eval_points
  | [], _ => rfl
  | q :: qs, s => by
    rw [List.foldl_cons, foldl_update_hist_prev_points qs (update s q), update_hist_prev_points]

theorem foldl_update_hist_prev_vals :
    ∀ (qs : List (Qinfo P F)) (s : BlackboxOptimiser P F),
      (List.foldl update s qs).history.prev_eval_vals = s.history.prev_eval_vals
  | [], _ => rfl
  | q :: qs, s => by
    rw [List.foldl_cons, foldl_update_hist_prev_vals qs (update s q), update_hist_prev_vals]

theorem foldl_hpe_func_caller :
    ∀ (qs : List (Qinfo P F)) (s : BlackboxOptimiser P F),
      (List.foldl handlePrevEvalsStep s qs).func_caller = s.func_caller
  | [], _ => rfl
  | q :: qs, s => by
    rw [List.foldl_cons, foldl_hpe_func_caller qs, hpe_func_caller]

theorem foldl_hpe_num :
    ∀ (qs : List (Qinfo P F)) (s : BlackboxOptimiser P F),
      (List.foldl handlePrevEvalsStep s qs).num_fidel_to_opt_calls
        = s.num_fidel_to_opt_calls
  | [], _ => rfl
  | q :: qs, s => by
    rw [List.foldl_cons, foldl_hpe_num qs, hpe_num]

theorem foldl_hpe_history :
    ∀ (qs : List (Qinfo P F)) (s : BlackboxOptimiser P F),
      (List.foldl handlePrevEvalsStep s qs).history = s.history
  | [], _ => rfl
  | q :: qs, s => by
    rw [List.foldl_cons, foldl_hpe_history qs, hpe_history]

theorem foldl_hpe_prev_points :
    ∀ (qs : List (Qinfo P F)) (s : BlackboxOptimiser P F),
      (List.foldl handlePrevEvalsStep s qs).prev_eval_points
        = s.prev_eval_points ++ qs.map Qinfo.point
  | [], _ => by simp
  | q :: qs, s => by
    rw [List.foldl_cons, foldl_hpe_prev_points qs (handlePrevEvalsStep s q), hpe_prev_points]
    simp

theorem foldl_hpe_prev_vals :
    ∀ (qs : List (Qinfo P F)) (s : BlackboxOptimiser P F),
      (List.foldl handlePrevEvalsStep s qs).prev_eval_vals
        = s.prev_eval_vals ++ qs.map Qinfo.val
  | [], _ => by simp
  | q :: qs, s => by
    rw [List.foldl_cons, foldl_hpe_prev_vals qs (handlePrevEvalsStep s q), hpe_prev_vals]
    simp

end Lemmas8

section Lemmas9

variable {P F : Type} [DecidableEq F]

@[simp] theorem hpel_func_caller (s : BlackboxOptimiser P F) (qs : List (Qinfo P F)) :
    (_exd_child_handle_prev_evals s qs).func_caller
      = (List.foldl handlePrevEvalsStep s qs).func_caller := rfl

@[simp] theorem hpel_num (s : BlackboxOptimiser P F) (qs : List (Qinfo P F)) :
    (_exd_child_handle_prev_evals s qs).num_fidel_to_opt_calls
      = (List.foldl handlePrevEvalsStep s qs).num_fidel_to_opt_calls := rfl

@[simp] theorem hpel_optQuad (s : BlackboxOptimiser P F) (qs : List (Qinfo P F)) :
    optQuad (_exd_child_handle_prev_evals s qs)
      = optQuad (List.foldl handlePrevEvalsStep s qs) := rfl

@[simp] theorem hpel_query_vals (s : BlackboxOptimiser P F) (qs : List (Qinfo P F)) :
    (_exd_child_handle_prev_evals s qs).history.query_vals
      = (List.foldl handlePrevEvalsStep s qs).history.query_vals := rfl

@[simp] theorem hpel_query_true_vals (s : BlackboxOptimiser P F) (qs : List (Qinfo P F)) :
    (_exd_child_handle_prev_evals s qs).history.query_true_vals
      = (List.foldl handlePrevEvalsStep s qs).history.query_true_vals := rfl

@[simp] theorem hpel_curr_opt_vals (s : BlackboxOptimiser P F) (qs : List (Qinfo P F)) :
    (_exd_child_handle_prev_evals s qs).history.curr_opt_vals
      = (List.foldl handlePrevEvalsStep s qs).history.curr_opt_vals := rfl

@[simp] theorem hpel_curr_opt_points (s : BlackboxOptimiser P F) (qs : List (Qinfo P F)) :
    (_exd_child_handle_prev_evals s qs).history.curr_opt_points
      = (List.foldl handlePrevEvalsStep s qs).history.curr_opt_points := rfl

@[simp] theorem hpel_curr_true_opt_vals (s : BlackboxOptimiser P F) (qs : List (Qinfo P F)) :
    (_exd_child_handle_prev_evals s qs).history.curr_true_opt_vals
      = (List.foldl handlePrevEvalsStep s qs).history.curr_true_opt_vals := rfl

@[simp] theorem hpel_curr_true_opt_points (s : BlackboxOptimiser P F) (qs : List (Qinfo P F)) :
    (_exd_child_handle_prev_evals s qs).history.curr_true_opt_points
      = (List.foldl handlePrevEvalsStep s qs).history.curr_true_opt_points := rfl

@[simp] theorem hpel_qafto (s : BlackboxOptimiser P F) (qs : List (Qinfo P F)) :
    (_exd_child_handle_prev_evals s qs).history.query_at_fidel_to_opts
      = (List.foldl handlePrevEvalsStep s qs).history.query_at_fidel_to_opts := rfl

@[simp] theorem hpel_hist_prev_points (s : BlackboxOptimiser P F) (qs : List (Qinfo P F)) :
    (_exd_child_handle_prev_evals s qs).history.prev_eval_points
      = (List.foldl handlePrevEvalsStep s qs).prev_eval_points := rfl

@[simp] theorem hpel_hist_prev_vals (s : BlackboxOptimiser P F) (qs : List (Qinfo P F)) :
    (_exd_child_handle_prev_evals s qs).history.prev_eval_vals
      = (List.foldl handlePrevEvalsStep s qs).prev_eval_vals := rfl

theorem listMax_map {α : Type} (f : α → Val) (l : List α) :
    listMax (l.map f) = l.foldl (fun a x => max a (f x)) ⊥ := by
  simp [listMax, List.foldl_map]

theorem pySum_go : ∀ (l : List Bool) (a : Nat),
    List.foldl (fun a b => a + cond b 1 0) a l = a + l.count true
  | [], a => by simp
  | b :: l, a => by
    rw [List.foldl_cons, pySum_go l]
    cases b <;> simp [List.count_cons] <;> omega

theorem pySum_eq_count (l : List Bool) : pySum l = l.count true := by
  simpa using pySum_go l 0

theorem lastN_length {α : Type} (n : Nat) (l : List α) :
    (lastN n l).length = min n l.length := by
  simp [lastN]
  omega

theorem eligible_eq_true_of_gate (s : BlackboxOptimiser P F) (q : Qinfo P F)
    (hel : eligible s.func_caller q = true) : gateArg s q ≠ some false := by
  by_cases hm : s.func_caller.is_mf
  · simp only [eligible, hm, Bool.not_true, Bool.false_or] at hel
    simp [gateArg, hm, queryIsAtFidelToOpt, hel]
  · simp [gateArg, hm]

theorem eligible_false_parts (s : BlackboxOptimiser P F) (q : Qinfo P F)
    (hel : eligible s.func_caller q = false) :
    s.func_caller.is_mf = true ∧ queryIsAtFidelToOpt s q = false := by
  by_cases hm : s.func_caller.is_mf
  · simp only [eligible, hm, Bool.not_true, Bool.false_or] at hel
    exact ⟨hm, hel⟩
  · simp [eligible, hm] at hel

theorem foldl_update_bot_aux :
    ∀ (qs : List (Qinfo P F)) (s : BlackboxOptimiser P F),
      (∀ q ∈ qs, eligible s.func_caller q = true → q.val = ⊥) →
      s.curr_opt_val = ⊥ →
      (List.foldl update s qs).curr_opt_val = ⊥
        ∧ (List.foldl update s qs).curr_opt_point = s.curr_opt_point
  | [], s, _, h0 => ⟨h0, rfl⟩
  | q :: qs, s, hall, h0 => by
    rw [List.foldl_cons]
    have step : (update s q).curr_opt_val = ⊥
        ∧ (update s q).curr_opt_point = s.curr_opt_point := by
      by_cases hel : eligible s.func_caller q = true
      · have hv : q.val = ⊥ := hall q (by simp) hel
        have hg : gateArg s q ≠ some false := eligible_eq_true_of_gate s q hel
        constructor
        · calc (update s q).curr_opt_val = (optQuad (update s q)).1 := rfl
            _ = max (optQuad s).1 q.val := by rw [optQuad_update, quadStep_fst _ _ _ hg]
            _ = ⊥ := by
                have : (optQuad s).1 = s.curr_opt_val := rfl
                rw [this, h0, hv]
                simp
        · calc (update s q).curr_opt_point = (optQuad (update s q)).2.1 := rfl
            _ = if (optQuad s).1 < q.val then some q.point else (optQuad s).2.1 := by
                rw [optQuad_update, quadStep_snd _ _ _ hg]
            _ = s.curr_opt_point := by
                have h1 : (optQuad s).1 = s.curr_opt_val := rfl
                rw [h1, h0, hv]
                simp [optQuad]
      · obtain ⟨hm, hb⟩ := eligible_false_parts s q (by simpa using hel)
        have hq := update_quad_gate_false s q hm hb
        exact ⟨by rw [show (update s q).curr_opt_val = (optQuad (update s q)).1 from rfl, hq]
                  exact h0,
               by rw [show (update s q).curr_opt_point = (optQuad (update s q)).2.1 from rfl, hq]
                  rfl⟩
    obtain ⟨ih1, ih2⟩ := foldl_update_bot_aux qs (update s q)
      (fun q' hq' hel => hall q' (by simp [hq'])
        (by rwa [update_func_caller] at hel)) step.1
    exact ⟨ih1, by rw [ih2, step.2]⟩

end Lemmas9

/-! ## Claim theorems -/

/-- C1: In single-fidelity mode, after every call to the per-evaluation update
operation (`_exd_child_update_history`) on any sequence of records,
`curr_opt_val` equals the maximum of all record `val` fields seen so far and
`curr_true_opt_val` equals the maximum of all record `true_val` fields seen so
far; and the two comparisons are independent: in the concrete run where `s1c`
processes `q2c`, the record raises `curr_opt_val` without changing
`curr_true_opt_val`. -/
theorem C1_single_fidelity_running_max :
    (∀ (P F : Type) [DecidableEq F] (f0 : F) (qs : List (Qinfo P F)) (n : ℕ),
      (List.foldl update (_blackbox_optimise_set_up (FuncCaller.mk false f0))
          (List.take n qs)).curr_opt_val
        = listMax ((List.take n qs).map Qinfo.val)
      ∧ (List.foldl update (_blackbox_optimise_set_up (FuncCaller.mk false f0))
          (List.take n qs)).curr_true_opt_val
        = listMax ((List.take n qs).map Qinfo.true_val))
    ∧ (update s1c q2c).curr_opt_val ≠ s1c.curr_opt_val
    ∧ (update s1c q2c).curr_true_opt_val = s1c.curr_true_opt_val := by
  refine ⟨fun P F _ f0 qs n => ⟨?_, ?_⟩, by decide, by decide⟩
  · rw [foldl_update_ov_sf _ _ rfl, listMax_map]
    rfl
  · rw [foldl_update_tv_sf _ _ rfl, listMax_map]
    rfl

/-- C2: In multi-fidelity mode, an update call for a record whose fidelity is
not the fidelity-to-optimise leaves all four optimum fields (and the counter)
unchanged, while still appending exactly one entry to each per-step history
sequence: a `false` entry in `query_at_fidel_to_opts`, the record's values in
the query sequences, and a repeat of the unchanged optimum snapshot. -/
theorem C2_off_target_frame (P F : Type) [DecidableEq F] (s : BlackboxOptimiser P F)
    (q : Qinfo P F) (hm : s.func_caller.is_mf = true)
    (hb : queryIsAtFidelToOpt s q = false) :
    (update s q).curr_opt_val = s.curr_opt_val
    ∧ (update s q).curr_opt_point = s.curr_opt_point
    ∧ (update s q).curr_true_opt_val = s.curr_true_opt_val
    ∧ (update s q).curr_true_opt_point = s.curr_true_opt_point
    ∧ (update s q).num_fidel_to_opt_calls = s.num_fidel_to_opt_calls
    ∧ (update s q).history.query_vals = s.history.query_vals ++ [q.val]
    ∧ (update s q).history.query_true_vals = s.history.query_true_vals ++ [q.true_val]
    ∧ (update s q).history.query_at_fidel_to_opts
        = s.history.query_at_fidel_to_opts ++ [false]
    ∧ (update s q).history.curr_opt_vals = s.history.curr_opt_vals ++ [s.curr_opt_val]
    ∧ (update s q).history.curr_opt_points
        = s.history.curr_opt_points ++ [s.curr_opt_point]
    ∧ (update s q).history.curr_true_opt_vals
        = s.history.curr_true_opt_vals ++ [s.curr_true_opt_val]
    ∧ (update s q).history.curr_true_opt_points
        = s.history.curr_true_opt_points ++ [s.curr_true_opt_point] := by
  have hq := update_quad_gate_false s q hm hb
  have h1 : (update s q).curr_opt_val = s.curr_opt_val := congrArg (fun r => r.1) hq
  have h2 : (update s q).curr_opt_point = s.curr_opt_point := congrArg (fun r => r.2.1) hq
  have h3 : (update s q).curr_true_opt_val = s.curr_true_opt_val :=
    congrArg (fun r => r.2.2.1) hq
  have h4 : (update s q).curr_true_opt_point = s.curr_true_opt_point :=
    congrArg (fun r => r.2.2.2) hq
  refine ⟨h1, h2, h3, h4, ?_, update_query_vals s q, update_query_true_vals s q, ?_, ?_, ?_,
    ?_, ?_⟩
  · rw [update_num, hm, hb]
    simp
  · rw [update_qafto, hm, hb]
    simp
  · rw [update_curr_opt_vals, h1]
  · rw [update_curr_opt_points, h2]
  · rw [update_curr_true_opt_vals, h3]
  · rw [update_curr_true_opt_points, h4]

/-- Witness for C2 at a concrete input: the off-target record `q2w` processed on
the multi-fidelity state `s2w`. -/
theorem C2_off_target_frame_witness :
    (update s2w q2w).curr_opt_val = s2w.curr_opt_val
    ∧ (update s2w q2w).curr_opt_point = s2w.curr_opt_point
    ∧ (update s2w q2w).curr_true_opt_val = s2w.curr_true_opt_val
    ∧ (update s2w q2w).curr_true_opt_point = s2w.curr_true_opt_point
    ∧ (update s2w q2w).num_fidel_to_opt_calls = s2w.num_fidel_to_opt_calls
    ∧ (update s2w q2w).history.query_vals = s2w.history.query_vals ++ [q2w.val]
    ∧ (update s2w q2w).history.query_true_vals
        = s2w.history.query_true_vals ++ [q2w.true_val]
    ∧ (update s2w q2w).history.query_at_fidel_to_opts
        = s2w.history.query_at_fidel_to_opts ++ [false]
    ∧ (update s2w q2w).history.curr_opt_vals
        = s2w.history.curr_opt_vals ++ [s2w.curr_opt_val]
    ∧ (update s2w q2w).history.curr_opt_points
        = s2w.history.curr_opt_points ++ [s2w.curr_opt_point]
    ∧ (update s2w q2w).history.curr_true_opt_vals
        = s2w.history.curr_true_opt_vals ++ [s2w.curr_true_opt_val]
    ∧ (update s2w q2w).history.curr_true_opt_points
        = s2w.history.curr_true_opt_points ++ [s2w.curr_true_opt_point] :=
  C2_off_target_frame ℕ ℕ s2w q2w (by decide) (by decide)

/-- C3 counterexample: one prior record at the target fidelity.  Processing it
via `update` sets `num_fidel_to_opt_calls` to 1, but replaying it via
`_exd_child_handle_prev_evals` leaves the counter at 0 — so seeding does not
advance `OptimumState` (which the data model declares to include
`target_fidelity_call_count`) identically to updating. -/
theorem C3_counterexample :
    (update (_blackbox_optimise_set_up mfCaller) q3c).num_fidel_to_opt_calls = 1
    ∧ (_exd_child_handle_prev_evals (_blackbox_optimise_set_up mfCaller)
        [q3c]).num_fidel_to_opt_calls = 0
    ∧ (update (_blackbox_optimise_set_up mfCaller) q3c).num_fidel_to_opt_calls
        ≠ (_exd_child_handle_prev_evals (_blackbox_optimise_set_up mfCaller)
            [q3c]).num_fidel_to_opt_calls := by
  refine ⟨by decide, by decide, by decide⟩

/-- C3 (amended): replaying K prior records via `_exd_child_handle_prev_evals`
advances the four optimum fields exactly as processing them via `update` would,
but leaves `num_fidel_to_opt_calls` untouched (at 0 from set-up); it adds
nothing to the per-step `EvaluationHistory` sequences, and afterwards
`history.prev_eval_points` and `history.prev_eval_vals` have length K. -/
theorem C3_seed_matches_update_amended (P F : Type) [DecidableEq F] (fc : FuncCaller F)
    (qs : List (Qinfo P F)) :
    (_exd_child_handle_prev_evals (_blackbox_optimise_set_up fc) qs).curr_opt_val
        = (List.foldl update (_blackbox_optimise_set_up fc) qs).curr_opt_val
    ∧ (_exd_child_handle_prev_evals (_blackbox_optimise_set_up fc) qs).curr_opt_point
        = (List.foldl update (_blackbox_optimise_set_up fc) qs).curr_opt_point
    ∧ (_exd_child_handle_prev_evals (_blackbox_optimise_set_up fc) qs).curr_true_opt_val
        = (List.foldl update (_blackbox_optimise_set_up fc) qs).curr_true_opt_val
    ∧ (_exd_child_handle_prev_evals (_blackbox_optimise_set_up fc) qs).curr_true_opt_point
        = (List.foldl update (_blackbox_optimise_set_up fc) qs).curr_true_opt_point
    ∧ (_exd_child_handle_prev_evals (_blackbox_optimise_set_up fc)
        qs).num_fidel_to_opt_calls = 0
    ∧ (_exd_child_handle_prev_evals (_blackbox_optimise_set_up fc)
        qs).history.query_vals = []
    ∧ (_exd_child_handle_prev_evals (_blackbox_optimise_set_up fc)
        qs).history.query_true_vals = []
    ∧ (_exd_child_handle_prev_evals (_blackbox_optimise_set_up fc)
        qs).history.curr_opt_vals = []
    ∧ (_exd_child_handle_prev_evals (_blackbox_optimise_set_up fc)
        qs).history.curr_opt_points = []
    ∧ (_exd_child_handle_prev_evals (_blackbox_optimise_set_up fc)
        qs).history.curr_true_opt_vals = []
    ∧ (_exd_child_handle_prev_evals (_blackbox_optimise_set_up fc)
        qs).history.curr_true_opt_points = []
    ∧ (_exd_child_handle_prev_evals (_blackbox_optimise_set_up fc)
        qs).history.query_at_fidel_to_opts = []
    ∧ (_exd_child_handle_prev_evals (_blackbox_optimise_set_up fc)
        qs).history.prev_eval_points.length = qs.length
    ∧ (_exd_child_handle_prev_evals (_blackbox_optimise_set_up fc)
        qs).history.prev_eval_vals.length = qs.length := by
  have hquad : optQuad (_exd_child_handle_prev_evals (_blackbox_optimise_set_up fc) qs)
      = optQuad (List.foldl update (_blackbox_optimise_set_up fc) qs) := by
    rw [hpel_optQuad]
    exact foldl_quad_agree qs _ _ rfl rfl
  refine ⟨congrArg (fun r => r.1) hquad, congrArg (fun r => r.2.1) hquad,
    congrArg (fun r => r.2.2.1) hquad, congrArg (fun r => r.2.2.2) hquad,
    ?_, ?_, ?_, ?_, ?_, ?_, ?_, ?_, ?_, ?_⟩
  · rw [hpel_num, foldl_hpe_num]
    rfl
  · rw [hpel_query_vals, foldl_hpe_history]
    rfl
  · rw [hpel_query_true_vals, foldl_hpe_history]
    rfl
  · rw [hpel_curr_opt_vals, foldl_hpe_history]
    rfl
  · rw [hpel_curr_opt_points, foldl_hpe_history]
    rfl
  · rw [hpel_curr_true_opt_vals, foldl_hpe_history]
    rfl
  · rw [hpel_curr_true_opt_points, foldl_hpe_history]
    rfl
  · rw [hpel_qafto, foldl_hpe_history]
    rfl
  · rw [hpel_hist_prev_points, foldl_hpe_prev_points,
      show (_blackbox_optimise_set_up fc : BlackboxOptimiser P F).prev_eval_points = []
        from rfl]
    simp
  · rw [hpel_hist_prev_vals, foldl_hpe_prev_vals,
      show (_blackbox_optimise_set_up fc : BlackboxOptimiser P F).prev_eval_vals = []
        from rfl]
    simp

/-- C4 counterexample: on `OptInitialiser`, a call into the optimum-tracking
update path at a concrete state and record does not raise — it returns the
normal inherited update result — refuting the claim that every call into that
path raises the unsupported-operation error. -/
theorem C4_counterexample :
    optInitialiserExdChildUpdateHistory s4c q4c
      = Except.ok (_exd_child_update_history s4c q4c)
    ∧ (optInitialiserExdChildUpdateHistory s4c q4c).isOk = true := by
  exact ⟨rfl, rfl⟩

/-- C4 (amended): on `OptInitialiser`, the prior-evaluation handling path, the
initial-qinfo path and both next-query-selection paths raise the
unsupported-operation `ValueError` in all cases, but the optimum-tracking
update path is not overridden: it always runs the inherited
`_exd_child_update_history` normally and never raises. -/
theorem C4_initialiser_guards_amended :
    optInitialiserHandlePrevEvals = Except.error initialiserError
    ∧ optInitialiserGetInitialQinfos = Except.error initialiserError
    ∧ optInitialiserDetermineNextQuery = Except.error initialiserError
    ∧ optInitialiserDetermineNextBatchOfQueries = Except.error initialiserError
    ∧ ∀ (P F : Type) [DecidableEq F] (s : BlackboxOptimiser P F) (q : Qinfo P F),
        optInitialiserExdChildUpdateHistory s q
          = Except.ok (_exd_child_update_history s q) :=
  ⟨rfl, rfl, rfl, rfl, fun _ _ _ _ _ => rfl⟩

/-- C5 counterexample: after the five records of `q5s` (three at the target
fidelity), the history window has length 5, yet the status line reads
`#f2o=3(3/20)` — the denominator is the constant `window_length = 20`, not the
actual window size 5 claimed by the specification. -/
theorem C5_counterexample :
    _get_exd_child_report_results_str s5c = "curr_max=8.00000, #f2o=3(3/20), "
    ∧ (lastN 20 s5c.history.query_at_fidel_to_opts).length = 5
    ∧ _get_exd_child_report_results_str s5c ≠ "curr_max=8.00000, #f2o=3(3/5), " := by
  refine ⟨by decide, by decide, by decide⟩

/-- C5 (amended): in multi-fidelity mode the status line renders the
fixed-precision current maximum, the total target-fidelity call count, and the
count of target-fidelity evaluations over the most recent window of
min(20, history length) evaluations — but the displayed denominator is always
the literal `20`, regardless of the actual window length. -/
theorem C5_report_format_amended (P F : Type) [DecidableEq F]
    (s : BlackboxOptimiser P F) (hm : s.func_caller.is_mf = true) :
    _get_exd_child_report_results_str s
      = "curr_max=" ++ fmtFixed5 s.curr_opt_val
        ++ (", #f2o=" ++ toString s.num_fidel_to_opt_calls ++ "("
            ++ toString ((lastN 20 s.history.query_at_fidel_to_opts).count true) ++ "/"
            ++ toString 20 ++ ")")
        ++ _get_opt_method_report_results_str ++ ", "
    ∧ (lastN 20 s.history.query_at_fidel_to_opts).length
        = min 20 s.history.query_at_fidel_to_opts.length := by
  constructor
  · rw [_get_exd_child_report_results_str]
    simp only [hm, if_true, pySum_eq_count]
  · exact lastN_length 20 _

/-- Witness for C5 (amended) at the concrete five-record state `s5c`. -/
theorem C5_report_format_amended_witness :
    _get_exd_child_report_results_str s5c
      = "curr_max=" ++ fmtFixed5 s5c.curr_opt_val
        ++ (", #f2o=" ++ toString s5c.num_fidel_to_opt_calls ++ "("
            ++ toString ((lastN 20 s5c.history.query_at_fidel_to_opts).count true) ++ "/"
            ++ toString 20 ++ ")")
        ++ _get_opt_method_report_results_str ++ ", "
    ∧ (lastN 20 s5c.history.query_at_fidel_to_opts).length
        = min 20 s5c.history.query_at_fidel_to_opts.length :=
  C5_report_format_amended ℕ ℕ s5c (by decide)

/-- C6: after set-up, optional seeding with prior records, and any number of
update calls, all per-step parallel sequences of the history have equal length,
namely the number of update calls (seeded records excluded); the
`query_at_fidel_to_opts` sequence exists (is non-trivially maintained) exactly
in multi-fidelity mode. -/
theorem C6_parallel_lengths (P F : Type) [DecidableEq F] (fc : FuncCaller F)
    (ps qs : List (Qinfo P F)) :
    (List.foldl update (_exd_child_handle_prev_evals (_blackbox_optimise_set_up fc) ps)
        qs).history.query_vals.length = qs.length
    ∧ (List.foldl update (_exd_child_handle_prev_evals (_blackbox_optimise_set_up fc) ps)
        qs).history.query_true_vals.length = qs.length
    ∧ (List.foldl update (_exd_child_handle_prev_evals (_blackbox_optimise_set_up fc) ps)
        qs).history.curr_opt_vals.length = qs.length
    ∧ (List.foldl update (_exd_child_handle_prev_evals (_blackbox_optimise_set_up fc) ps)
        qs).history.curr_opt_points.length = qs.length
    ∧ (List.foldl update (_exd_child_handle_prev_evals (_blackbox_optimise_set_up fc) ps)
        qs).history.curr_true_opt_vals.length = qs.length
    ∧ (List.foldl update (_exd_child_handle_prev_evals (_blackbox_optimise_set_up fc) ps)
        qs).history.curr_true_opt_points.length = qs.length
    ∧ (List.foldl update (_exd_child_handle_prev_evals (_blackbox_optimise_set_up fc) ps)
        qs).history.query_at_fidel_to_opts.length
      = (if fc.is_mf then qs.length else 0) := by
  have hfc : (_exd_child_handle_prev_evals (_blackbox_optimise_set_up fc) ps).func_caller
      = fc := by
    rw [hpel_func_caller, foldl_hpe_func_caller]
    rfl
  have h1 : (_exd_child_handle_prev_evals (_blackbox_optimise_set_up fc)
      ps).history.query_vals = [] := by
    rw [hpel_query_vals, foldl_hpe_history]
    rfl
  have h2 : (_exd_child_handle_prev_evals (_blackbox_optimise_set_up fc)
      ps).history.query_true_vals = [] := by
    rw [hpel_query_true_vals, foldl_hpe_history]
    rfl
  have h3 : (_exd_child_handle_prev_evals (_blackbox_optimise_set_up fc)
      ps).history.curr_opt_vals.length = 0 := by
    rw [hpel_curr_opt_vals, foldl_hpe_history]
    rfl
  have h4 : (_exd_child_handle_prev_evals (_blackbox_optimise_set_up fc)
      ps).history.curr_opt_points.length = 0 := by
    rw [hpel_curr_opt_points, foldl_hpe_history]
    rfl
  have h5 : (_exd_child_handle_prev_evals (_blackbox_optimise_set_up fc)
      ps).history.curr_true_opt_vals.length = 0 := by
    rw [hpel_curr_true_opt_vals, foldl_hpe_history]
    rfl
  have h6 : (_exd_child_handle_prev_evals (_blackbox_optimise_set_up fc)
      ps).history.curr_true_opt_points.length = 0 := by
    rw [hpel_curr_true_opt_points, foldl_hpe_history]
    rfl
  have h7 : (_exd_child_handle_prev_evals (_blackbox_optimise_set_up fc)
      ps).history.query_at_fidel_to_opts.length = 0 := by
    rw [hpel_qafto, foldl_hpe_history]
    rfl
  refine ⟨?_, ?_, ?_, ?_, ?_, ?_, ?_⟩
  · rw [foldl_update_query_vals, h1]
    simp
  · rw [foldl_update_query_true_vals, h2]
    simp
  · rw [foldl_update_curr_opt_vals_len, h3]
    omega
  · rw [foldl_update_curr_opt_points_len, h4]
    omega
  · rw [foldl_update_curr_true_opt_vals_len, h5]
    omega
  · rw [foldl_update_curr_true_opt_points_len, h6]
    omega
  · rw [foldl_update_qafto_len, h7, hfc]
    simp

/-- C7: in multi-fidelity mode, after N update calls `num_fidel_to_opt_calls`
equals the number of those records whose (defaulted) fidelity matches the
fidelity-to-optimise; a record with no `fidel` attribute defaults to the
fidelity-to-optimise and therefore always counts. -/
theorem C7_counter_counts_target_records :
    (∀ (P F : Type) [DecidableEq F] (f0 : F) (qs : List (Qinfo P F)),
      (List.foldl update (_blackbox_optimise_set_up (FuncCaller.mk true f0))
          qs).num_fidel_to_opt_calls
        = qs.countP (fun q => atF2O (FuncCaller.mk true f0) q))
    ∧ ∀ (P F : Type) [DecidableEq F] (f0 : F) (p : P) (v tv : Val),
        atF2O (FuncCaller.mk true f0) (Qinfo.mk p v tv none) = true := by
  constructor
  · intro P F _ f0 qs
    rw [foldl_update_num_mf qs _ (FuncCaller.mk true f0) rfl rfl]
    simp [_blackbox_optimise_set_up]
  · intro P F _ f0 p v tv
    simp [atF2O, FuncCaller.is_fidel_to_opt]

/-- C8: binding a multi-fidelity optimisation method to a single-fidelity
function caller fails at construction with the `CalledMFOptimiserWithSFCaller`
error, whose message (built exactly as in the source exception class) contains
both the optimiser's and the caller's string forms; no optimiser state is
produced, so the run never starts. -/
theorem C8_mf_with_sf_caller_fails (P F : Type) [DecidableEq F] (o fs : String)
    (fc : FuncCaller F) (h : fc.is_mf = false) :
    constructBlackboxOptimiser P F o fs true fc
      = Except.error (calledMFOptimiserWithSFCallerMsg o fs)
    ∧ o.data <:+: (calledMFOptimiserWithSFCallerMsg o fs).data
    ∧ fs.data <:+: (calledMFOptimiserWithSFCallerMsg o fs).data := by
  refine ⟨by simp [constructBlackboxOptimiser, h], ?_, ?_⟩
  · refine ⟨"Called optimiser ".data,
      (" with func_caller " ++ fs ++ ". func_caller needs to be multi-fidelity.").data, ?_⟩
    simp [calledMFOptimiserWithSFCallerMsg, String.data_append, List.append_assoc]
  · refine ⟨("Called optimiser " ++ o ++ " with func_caller ").data,
      ". func_caller needs to be multi-fidelity.".data, ?_⟩
    simp [calledMFOptimiserWithSFCallerMsg, String.data_append, List.append_assoc]

/-- Witness for C8 at concrete strings and the single-fidelity caller. -/
theorem C8_mf_with_sf_caller_fails_witness :
    constructBlackboxOptimiser ℕ ℕ "optimiser" "caller" true sfCaller
      = Except.error (calledMFOptimiserWithSFCallerMsg "optimiser" "caller")
    ∧ "optimiser".data <:+: (calledMFOptimiserWithSFCallerMsg "optimiser" "caller").data
    ∧ "caller".data <:+: (calledMFOptimiserWithSFCallerMsg "optimiser" "caller").data :=
  C8_mf_with_sf_caller_fails ℕ ℕ "optimiser" "caller" sfCaller rfl

/-- C9: in `_update_opt_point_and_val`, a record whose `val` exactly equals
`curr_opt_val` never replaces `curr_opt_val` or `curr_opt_point`, and a record
whose `true_val` exactly equals `curr_true_opt_val` never replaces
`curr_true_opt_val` or `curr_true_opt_point`: the comparison is strict `>`, so
the first-seen incumbent wins on ties. -/
theorem C9_ties_never_replace (P F : Type) [DecidableEq F] (s : BlackboxOptimiser P F)
    (q : Qinfo P F) (g : Option Bool) :
    (q.val = s.curr_opt_val →
      (_update_opt_point_and_val s q g).curr_opt_val = s.curr_opt_val
      ∧ (_update_opt_point_and_val s q g).curr_opt_point = s.curr_opt_point)
    ∧ (q.true_val = s.curr_true_opt_val →
      (_update_opt_point_and_val s q g).curr_true_opt_val = s.curr_true_opt_val
      ∧ (_update_opt_point_and_val s q g).curr_true_opt_point
          = s.curr_true_opt_point) := by
  by_cases hg : g = some false
  · exact ⟨fun _ => by rw [hg, uopv_gate_false]; exact ⟨rfl, rfl⟩,
      fun _ => by rw [hg, uopv_gate_false]; exact ⟨rfl, rfl⟩⟩
  constructor
  · intro hv
    constructor
    · calc (_update_opt_point_and_val s q g).curr_opt_val
          = (optQuad (_update_opt_point_and_val s q g)).1 := rfl
        _ = max (optQuad s).1 q.val := by rw [optQuad_uopv, quadStep_fst _ _ _ hg]
        _ = s.curr_opt_val := by
            rw [show (optQuad s).1 = s.curr_opt_val from rfl, hv]
            exact max_self _
    · calc (_update_opt_point_and_val s q g).curr_opt_point
          = (optQuad (_update_opt_point_and_val s q g)).2.1 := rfl
        _ = if (optQuad s).1 < q.val then some q.point else (optQuad s).2.1 := by
            rw [optQuad_uopv, quadStep_snd _ _ _ hg]
        _ = s.curr_opt_point := by
            rw [show (optQuad s).1 = s.curr_opt_val from rfl, hv]
            simp [optQuad]
  · intro hv
    constructor
    · calc (_update_opt_point_and_val s q g).curr_true_opt_val
          = (optQuad (_update_opt_point_and_val s q g)).2.2.1 := rfl
        _ = max (optQuad s).2.2.1 q.true_val := by rw [optQuad_uopv, quadStep_trd _ _ _ hg]
        _ = s.curr_true_opt_val := by
            rw [show (optQuad s).2.2.1 = s.curr_true_opt_val from rfl, hv]
            exact max_self _
    · calc (_update_opt_point_and_val s q g).curr_true_opt_point
          = (optQuad (_update_opt_point_and_val s q g)).2.2.2 := rfl
        _ = if (optQuad s).2.2.1 < q.true_val then some q.point else (optQuad s).2.2.2 := by
            rw [optQuad_uopv, quadStep_fth _ _ _ hg]
        _ = s.curr_true_opt_point := by
            rw [show (optQuad s).2.2.1 = s.curr_true_opt_val from rfl, hv]
            simp [optQuad]

/-- Witness for C9: the record `q9c` ties both the observed optimum (5) and the
true optimum (10) of the concrete state `s1c`, and replaces neither incumbent. -/
theorem C9_ties_never_replace_witness :
    ((_update_opt_point_and_val s1c q9c none).curr_opt_val = s1c.curr_opt_val
      ∧ (_update_opt_point_and_val s1c q9c none).curr_opt_point = s1c.curr_opt_point)
    ∧ ((_update_opt_point_and_val s1c q9c none).curr_true_opt_val = s1c.curr_true_opt_val
      ∧ (_update_opt_point_and_val s1c q9c none).curr_true_opt_point
          = s1c.curr_true_opt_point) :=
  ⟨(C9_ties_never_replace ℕ ℕ s1c q9c none).1 (by decide),
   (C9_ties_never_replace ℕ ℕ s1c q9c none).2 (by decide)⟩

/-- C10: because the optimum starts at the sentinel `-np.inf` (`⊥`) and is only
replaced on strict `>`, a record whose `val` is `-np.inf` can never become the
incumbent: whenever every step-2-eligible record of a run has `val = -np.inf`,
`curr_opt_point` stays `None`, `curr_opt_val` stays `-np.inf`, and the final
return quantities are `(-np.inf, None, history)`. -/
theorem C10_neg_inf_never_incumbent (P F : Type) [DecidableEq F] (fc : FuncCaller F)
    (qs : List (Qinfo P F)) (h : ∀ q ∈ qs, eligible fc q = true → q.val = ⊥) :
    (List.foldl update (_blackbox_optimise_set_up fc) qs).curr_opt_val = ⊥
    ∧ (List.foldl update (_blackbox_optimise_set_up fc) qs).curr_opt_point = none
    ∧ _get_final_return_quantities (List.foldl update (_blackbox_optimise_set_up fc) qs)
        = (⊥, none, (List.foldl update (_blackbox_optimise_set_up fc) qs).history) := by
  obtain ⟨h1, h2⟩ := foldl_update_bot_aux qs (_blackbox_optimise_set_up fc) h rfl
  have h2' : (List.foldl update (_blackbox_optimise_set_up fc) qs).curr_opt_point
      = none := h2
  exact ⟨h1, h2', by rw [_get_final_return_quantities, h1, h2']⟩

/-- Witness for C10: on `qs10` the only eligible record has value `-np.inf`
(the off-target record's value 100 is never considered), so the final optimum is
`(-np.inf, None)`. -/
theorem C10_neg_inf_never_incumbent_witness :
    (List.foldl update (_blackbox_optimise_set_up mfCaller) qs10).curr_opt_val = ⊥
    ∧ (List.foldl update (_blackbox_optimise_set_up mfCaller) qs10).curr_opt_point = none
    ∧ _get_final_return_quantities (List.foldl update (_blackbox_optimise_set_up mfCaller)
        qs10)
        = (⊥, none,
           (List.foldl update (_blackbox_optimise_set_up mfCaller) qs10).history) :=
  C10_neg_inf_never_incumbent ℕ ℕ mfCaller qs10 (by decide)
